import Mathlib

/-!
Shallow embedding of `src/collector.py` (class `RedfishMetricsCollector`)
of the redfish_exporter repository, together with theorems settling the
frozen claims about its specification.

Python JSON-like values are modelled by the inductive type `Json`;
Python `None` is `Json.null`, dictionaries are association lists with
distinct keys, floats appearing in the code (only the scrape duration)
are modelled as rationals.  Fallible Python operations (attribute or
method access that can raise `TypeError`/`AttributeError`) are modelled
in `Except PyErr`; operations the code performs inside a `try` that
swallows every exception are modelled by total functions returning
`Option`.
-/

/-- A Python JSON-like value as handled by `collector.py`. -/
inductive Json where
  | null
  | bool (b : Bool)
  | num (n : Int)
  | str (s : String)
  | arr (elems : List Json)
  | obj (fields : List (String × Json))

/-- Python truthiness (`bool(x)`) on `Json` values: `None`, `False`, `0`,
the empty string, the empty list and the empty dict are falsy. -/
def pyTruthy : Json → Bool
  | .null => false
  | .bool b => b
  | .num n => n != 0
  | .str s => s != ""
  | .arr l => !l.isEmpty
  | .obj l => !l.isEmpty

/-- The single-quote character used by Python `repr` of strings. -/
def squote : String := String.singleton (Char.ofNat 39)

mutual
/-- Python `str(x)` on a `Json` value: `str(None) = "None"`,
`str(True) = "True"`, numbers print themselves, strings are returned
as-is, and containers print their `repr`. -/
def pyStr : Json → String
  | .null => "None"
  | .bool true => "True"
  | .bool false => "False"
  | .num n => toString n
  | .str s => s
  | .arr l => "[" ++ String.intercalate ", " (pyReprList l) ++ "]"
  | .obj l => "\x7b" ++ String.intercalate ", " (pyReprFields l) ++ "\x7d"

/-- Python `repr(x)` on a `Json` value: like `pyStr` except that strings
are surrounded by single quotes (as elements of containers are). -/
def pyRepr : Json → String
  | .str s => squote ++ s ++ squote
  | .null => "None"
  | .bool true => "True"
  | .bool false => "False"
  | .num n => toString n
  | .arr l => "[" ++ String.intercalate ", " (pyReprList l) ++ "]"
  | .obj l => "\x7b" ++ String.intercalate ", " (pyReprFields l) ++ "\x7d"

/-- `repr` of the elements of a Python list. -/
def pyReprList : List Json → List String
  | [] => []
  | x :: xs => pyRepr x :: pyReprList xs

/-- `repr` of the key/value pairs of a Python dict. -/
def pyReprFields : List (String × Json) → List String
  | [] => []
  | (k, v) :: xs => (squote ++ k ++ squote ++ ": " ++ pyRepr v) :: pyReprFields xs
end

/-- The characters Python `str.strip()` removes: space, tab, newline,
carriage return, vertical tab, form feed. -/
def pyIsSpace (c : Char) : Bool :=
  c == ' ' || c == '\t' || c == '\n' || c == '\r' ||
    c == Char.ofNat 11 || c == Char.ofNat 12

/-- Python `s.strip()`: remove leading and trailing whitespace. -/
def pyStrip (s : String) : String :=
  ⟨((s.data.dropWhile pyIsSpace).reverse.dropWhile pyIsSpace).reverse⟩

/-- Python `str.lower()` on one character (ASCII range, which covers
every status string in the mapping table). -/
def pyToLower (c : Char) : Char :=
  if 65 ≤ c.toNat ∧ c.toNat ≤ 90 then Char.ofNat (c.toNat + 32) else c

/-- Python `str.upper()` on one character (ASCII range). -/
def pyToUpper (c : Char) : Char :=
  if 97 ≤ c.toNat ∧ c.toNat ≤ 122 then Char.ofNat (c.toNat - 32) else c

/-- Python `s.lower()`. -/
def pyLower (s : String) : String := ⟨s.data.map pyToLower⟩

/-- Python `s.upper()`. -/
def pyUpper (s : String) : String := ⟨s.data.map pyToUpper⟩

/-- A Python run-time error (`TypeError` / `AttributeError`), raised by
dict-method access on a non-dict or iteration over a non-iterable. -/
inductive PyErr where
  | typeError
deriving DecidableEq, Repr

/-- Python `d.get(key, default)`: raises unless `d` is a dict, otherwise
total lookup with default (association-list lookup, first match). -/
def pyDictGetD (d : Json) (key : String) (default : Json) : Except PyErr Json :=
  match d with
  | .obj fields => .ok ((fields.lookup key).getD default)
  | _ => .error .typeError

/-- Python `isinstance(x, dict)` on a `Json` value. -/
def isDict : Json → Bool
  | .obj _ => true
  | _ => false

/-- The status-mapping dictionary `self._status_map` of
`RedfishMetricsCollector.__init__` (src/collector.py lines 20-27),
with its exact keys and values including the `mapping_fail` entry. -/
def status_map : List (String × Nat) :=
  [("off", 0), ("on", 1), ("absent", 6), ("ok", 0),
   ("operable", 0), ("enabled", 0), ("good", 0),
   ("goodinuse", 0), ("critical", 1), ("degraded", 1),
   ("error", 1), ("warning", 2), ("unknown", 5),
   ("null", 5), ("none", 5), ("presentunused", 7),
   ("get_failed", 99), ("emptydata", 100), ("mapping_fail", 500)]

/-- `RedfishMetricsCollector._map_status` (src/collector.py lines 31-35):
`none` models a Python `None` argument, `some s` a string argument.
`if not status or status == 'None': return 5`, else
`self._status_map.get(str(status).lower(), 500)`. -/
def map_status (status : Option String) : Nat :=
  match status with
  | none => 5
  | some s =>
      if s = "" ∨ s = "None" then 5
      else ((status_map.lookup (pyLower s)).getD 500)

/-- `RedfishMetricsCollector._safe_get` (src/collector.py lines 37-45),
with `default='None'`: descend one key at a time; a non-dict intermediate
returns the default, a missing key substitutes the default string and
continues; at the end, `str(result).strip() if result else default`. -/
def safe_get (data : Json) (keys : List String) : String :=
  match keys with
  | [] => if pyTruthy data then pyStrip (pyStr data) else "None"
  | key :: rest =>
      if isDict data then
        match data with
        | .obj fields => safe_get ((fields.lookup key).getD (.str "None")) rest
        | _ => "None"
      else "None"

/-- Raising-aware embedding of `_map_status`: every Python operation in
its body (`not status`, equality test, `str`, `.lower()`,
`dict.get(k, default)` on the dict `self._status_map`) is total, so the
function is written in `Except PyErr` only to make that visible. -/
def map_statusE (status : Option String) : Except PyErr Nat :=
  match status with
  | none => .ok 5
  | some s =>
      if s = "" ∨ s = "None" then .ok 5
      else .ok ((status_map.lookup (pyLower s)).getD 500)

/-- Raising-aware embedding of `_safe_get`: `result.get(key, default)`
(modelled by `pyDictGetD`, which raises on a non-dict) is only ever
reached behind the `isinstance(result, dict)` guard, exactly as in the
source. -/
def safe_getE (data : Json) (keys : List String) : Except PyErr String :=
  match keys with
  | [] => .ok (if pyTruthy data then pyStrip (pyStr data) else "None")
  | key :: rest =>
      if isDict data then
        match pyDictGetD data key (.str "None") with
        | .ok next => safe_getE next rest
        | .error e => .error e
      else .ok "None"

/-- One emitted metric sample: a numeric value plus an ordered label set
(Python dict insertion order).  Which `GaugeMetricFamily` a sample
belongs to (`self._metrics` vs `self._scrape_metrics`) is recorded
structurally by the two fields of `CollectResult`. -/
structure Sample where
  value : Rat
  labels : List (String × String)
deriving DecidableEq, Repr

/-- Outcome of the socket connectivity probe in `ping_check`
(src/collector.py lines 47-77): `connect_ex` returned 0, returned
non-zero, or the socket operations raised. -/
inductive ProbeOutcome where
  | ok
  | refused
  | exn
deriving DecidableEq, Repr

/-- Outcome of `redfish_login` (src/collector.py lines 79-104):
success; `redfish.redfish_client(...)` raised before
`self._redfish_object` was assigned; or `.login(auth="session")` raised
after the handle was assigned. -/
inductive LoginOutcome where
  | ok
  | clientExn
  | loginExn
deriving DecidableEq, Repr

/-- The external collaborators of one poll cycle: the TCP probe at an
address, the Redfish login at a base URL with credentials, the
`_get_redfish_data` fetch capability (`none` models a non-200 status or
a transport exception, both absorbed inside `_get_redfish_data`), the
outcome of `logout()`, and the two wall-clock readings
(`self._start_time` and the `time.time()` taken in `collect`'s finally
block), floats modelled as rationals. -/
structure Env where
  probe : String → ProbeOutcome
  login : String → String → String → LoginOutcome
  fetch : Json → Option Json
  logoutOk : Bool
  tStart : Rat
  tEnd : Rat

/-- `RedfishMetricsCollector.ping_check` (src/collector.py lines 47-77):
returns the samples it adds and its boolean result.  A non-zero
`connect_ex` result and a socket exception both add the same `Fail`
sample and return `False`. -/
def ping_check (env : Env) (host : String) : List Sample × Bool :=
  match env.probe host with
  | .ok => ([⟨1, [("labeltype", "ping_check"), ("ping_check", "OK")]⟩], true)
  | .refused => ([⟨0, [("labeltype", "ping_check"), ("ping_check", "Fail")]⟩], false)
  | .exn => ([⟨0, [("labeltype", "ping_check"), ("ping_check", "Fail")]⟩], false)

/-- `RedfishMetricsCollector.redfish_login` (src/collector.py lines
79-104): returns (samples added, boolean result, whether
`self._redfish_object` holds a handle afterwards).  The handle is
assigned before `.login()` is called, so a failing `.login()` still
leaves a handle. -/
def redfish_login (env : Env) (host username password : String) :
    List Sample × Bool × Bool :=
  match env.login ("https://" ++ host) username password with
  | .ok => ([⟨1, [("labeltype", "redfish_login"), ("redfish_login", "OK")]⟩], true, true)
  | .clientExn => ([⟨0, [("labeltype", "redfish_login"), ("redfish_login", "Failed")]⟩], false, false)
  | .loginExn => ([⟨0, [("labeltype", "redfish_login"), ("redfish_login", "Failed")]⟩], false, true)

/-- Result of one traversal step: the samples it appended to
`self._metrics`, and whether a Python exception escaped it (to be caught
by the `except` in `collect`). -/
abbrev WalkResult := List Sample × Bool

/-- Sequencing of two traversal steps: if the first raised, the second
never runs. -/
def seqW (a b : WalkResult) : WalkResult :=
  if a.2 then a else (a.1 ++ b.1, b.2)

/-- Python `for x in v` over a `Json` value: lists iterate their
elements, strings their one-character substrings, dicts their keys;
`None`, booleans and numbers raise `TypeError`. -/
def pyIter : Json → Except PyErr (List Json)
  | .arr l => .ok l
  | .str s => .ok (s.toList.map fun c => Json.str (String.singleton c))
  | .obj fields => .ok (fields.map fun kv => Json.str kv.1)
  | _ => .error .typeError

/-- `RedfishMetricsCollector._collect_system_info` (src/collector.py
lines 234-264): two samples, system health and power state, sharing the
common labels. -/
def collect_system_info (system_data : Json) : List Sample :=
  let status_health := safe_get system_data ["Status", "Health"]
  let power_state := safe_get system_data ["PowerState"]
  let manufacturer := safe_get system_data ["Manufacturer"]
  let model := safe_get system_data ["Model"]
  let id := safe_get system_data ["Id"]
  let part_number := safe_get system_data ["PartNumber"]
  let serial_number := safe_get system_data ["SerialNumber"]
  let common_labels := [("Id", id), ("Manufacturer", manufacturer),
    ("Model", model), ("PartNumber", part_number), ("SerialNumber", serial_number)]
  [⟨(map_status (some status_health) : Nat),
      ("labeltype", "system_health") :: ("Status_Health", status_health) :: common_labels⟩,
   ⟨(map_status (some power_state) : Nat),
      ("labeltype", "system_power") :: ("PowerState", power_state) :: common_labels⟩]

/-- `RedfishMetricsCollector._collect_gpu_system_info` (src/collector.py
lines 119-143). -/
def collect_gpu_system_info (gpu_data : Json) : List Sample :=
  let status_health := safe_get gpu_data ["Status", "Health"]
  let power_state := safe_get gpu_data ["PowerState"]
  let id := safe_get gpu_data ["Id"]
  let manufacturer := safe_get gpu_data ["Manufacturer"]
  let common_labels := [("Manufacturer", manufacturer), ("Id", id)]
  [⟨(map_status (some status_health) : Nat),
      ("labeltype", "gpu_system_health") :: ("Status_Health", status_health) :: common_labels⟩,
   ⟨(map_status (some power_state) : Nat),
      ("labeltype", "gpu_system_power") :: ("PowerState", power_state) :: common_labels⟩]

/-- The sample built for one member of the system-level processor
collection (`_collect_processors` loop body, src/collector.py lines
282-302). -/
def processor_sample (processor_data : Json) : Sample :=
  let status_health := safe_get processor_data ["Status", "Health"]
  ⟨(map_status (some status_health) : Nat),
   [("labeltype", "processor"),
    ("Status_Health", status_health),
    ("Id", safe_get processor_data ["Id"]),
    ("Manufacturer", safe_get processor_data ["Manufacturer"]),
    ("InstructionSet", safe_get processor_data ["InstructionSet"]),
    ("MaxSpeedMHz", safe_get processor_data ["MaxSpeedMHz"]),
    ("Model", safe_get processor_data ["Model"]),
    ("Name", safe_get processor_data ["Name"]),
    ("ProcessorArchitecture", safe_get processor_data ["ProcessorArchitecture"]),
    ("ProcessorType", safe_get processor_data ["ProcessorType"]),
    ("Socket", safe_get processor_data ["Socket"]),
    ("TotalCores", safe_get processor_data ["TotalCores"]),
    ("TotalThreads", safe_get processor_data ["TotalThreads"])]⟩

/-- The sample built for one member of the system-level memory
collection (`_collect_memory` loop body, src/collector.py lines
320-340). -/
def memory_sample (memory_data : Json) : Sample :=
  let status_health := safe_get memory_data ["Status", "Health"]
  ⟨(map_status (some status_health) : Nat),
   [("labeltype", "memory"),
    ("Status_Health", status_health),
    ("CapacityMiB", safe_get memory_data ["CapacityMiB"]),
    ("DeviceLocator", safe_get memory_data ["DeviceLocator"]),
    ("Id", safe_get memory_data ["Id"]),
    ("Manufacturer", safe_get memory_data ["Manufacturer"]),
    ("Model", safe_get memory_data ["Model"]),
    ("MemoryDeviceType", safe_get memory_data ["MemoryDeviceType"]),
    ("MemoryType", safe_get memory_data ["MemoryType"]),
    ("Name", safe_get memory_data ["Name"]),
    ("OperatingSpeedMhz", safe_get memory_data ["OperatingSpeedMhz"]),
    ("PartNumber", safe_get memory_data ["PartNumber"]),
    ("SerialNumber", safe_get memory_data ["SerialNumber"])]⟩

/-- The sample built for one member of the GPU-baseboard processor
collection (`_collect_gpu_processors` loop body, src/collector.py lines
156-198): the `Id == "FPGA_0"` branch uses label-type `gpu_processor`
with the reduced field set, every other member the full set under
label-type `processor`. -/
def gpu_processor_sample (processor_data : Json) : Sample :=
  if safe_get processor_data ["Id"] = "FPGA_0" then
    let status_health := safe_get processor_data ["Status", "Health"]
    ⟨(map_status (some status_health) : Nat),
     [("labeltype", "gpu_processor"),
      ("Status_Health", status_health),
      ("FirmwareVersion", safe_get processor_data ["FirmwareVersion"]),
      ("Id", safe_get processor_data ["Id"]),
      ("Manufacturer", safe_get processor_data ["Manufacturer"]),
      ("Name", safe_get processor_data ["Name"])]⟩
  else
    let status_health := safe_get processor_data ["Status", "Health"]
    ⟨(map_status (some status_health) : Nat),
     [("labeltype", "processor"),
      ("Status_Health", status_health),
      ("BaseSpeedMHz", safe_get processor_data ["BaseSpeedMHz"]),
      ("FirmwareVersion", safe_get processor_data ["FirmwareVersion"]),
      ("Id", safe_get processor_data ["Id"]),
      ("Manufacturer", safe_get processor_data ["Manufacturer"]),
      ("MaxSpeedMHz", safe_get processor_data ["MaxSpeedMHz"]),
      ("Model", safe_get processor_data ["Model"]),
      ("Name", safe_get processor_data ["Name"]),
      ("OperatingSpeedMHz", safe_get processor_data ["OperatingSpeedMHz"]),
      ("PartNumber", safe_get processor_data ["PartNumber"]),
      ("ProcessorType", safe_get processor_data ["ProcessorType"]),
      ("SerialNumber", safe_get processor_data ["SerialNumber"]),
      ("TotalThreads", safe_get processor_data ["TotalThreads"])]⟩

/-- The sample built for one member of the GPU-baseboard memory
collection (`_collect_gpu_memory` loop body, src/collector.py lines
211-231). -/
def gpu_memory_sample (memory_data : Json) : Sample :=
  let status_health := safe_get memory_data ["Status", "Health"]
  ⟨(map_status (some status_health) : Nat),
   [("labeltype", "gpu_memory"),
    ("Status_Health", status_health),
    ("CapacityMiB", safe_get memory_data ["CapacityMiB"]),
    ("Id", safe_get memory_data ["Id"]),
    ("MemoryDeviceType", safe_get memory_data ["MemoryDeviceType"]),
    ("MemoryType", safe_get memory_data ["MemoryType"]),
    ("Name", safe_get memory_data ["Name"]),
    ("OperatingSpeedMhz", safe_get memory_data ["OperatingSpeedMhz"])]⟩

/-- The shared member loop of the four `_collect_*` collection methods:
`member.get('@odata.id')` (raises on a non-dict member), fetch via
`_get_redfish_data` (failure → `continue`), skip falsy documents, else
emit the member's sample and carry on with the siblings. -/
def member_loop (env : Env) (mkSample : Json → Sample) : List Json → WalkResult
  | [] => ([], false)
  | member :: rest =>
      match pyDictGetD member "@odata.id" .null with
      | .error _ => ([], true)
      | .ok pathv =>
          match env.fetch pathv with
          | none => member_loop env mkSample rest
          | some mdata =>
              if pyTruthy mdata then
                let r := member_loop env mkSample rest
                (mkSample mdata :: r.1, r.2)
              else member_loop env mkSample rest

/-- The shared collection shell of the four `_collect_*` collection
methods (e.g. `_collect_processors`, src/collector.py lines 266-302):
read the `linkField/@odata.id` link with `_safe_get`; the sentinel means
"no link, return"; fetch the collection (`None` or a falsy document →
return); `collection.get('Members', [])` (raises on a non-dict
collection); iterate the members. -/
def collect_resource (env : Env) (parent : Json) (linkField : String)
    (mkSample : Json → Sample) : WalkResult :=
  let path := safe_get parent [linkField, "@odata.id"]
  if path = "None" then ([], false)
  else
    match env.fetch (.str path) with
    | none => ([], false)
    | some coll =>
        if pyTruthy coll then
          match pyDictGetD coll "Members" (.arr []) with
          | .error _ => ([], true)
          | .ok mems =>
              match pyIter mems with
              | .error _ => ([], true)
              | .ok l => member_loop env mkSample l
        else ([], false)

/-- `RedfishMetricsCollector._collect_processors` (src/collector.py
lines 266-302). -/
def collect_processors (env : Env) (system_data : Json) : WalkResult :=
  collect_resource env system_data "Processors" processor_sample

/-- `RedfishMetricsCollector._collect_memory` (src/collector.py lines
304-340). -/
def collect_memory (env : Env) (system_data : Json) : WalkResult :=
  collect_resource env system_data "Memory" memory_sample

/-- `RedfishMetricsCollector._collect_gpu_processors` (src/collector.py
lines 145-198). -/
def collect_gpu_processors (env : Env) (gpu_data : Json) : WalkResult :=
  collect_resource env gpu_data "Processors" gpu_processor_sample

/-- `RedfishMetricsCollector._collect_gpu_memory` (src/collector.py
lines 200-231). -/
def collect_gpu_memory (env : Env) (gpu_data : Json) : WalkResult :=
  collect_resource env gpu_data "Memory" gpu_memory_sample

/-- The traversal part of `RedfishMetricsCollector.collect`
(src/collector.py lines 363-374): everything is guarded by
`if self._code == 'haein_gpu'`; any other profile code triggers no fetch
and adds no sample. -/
def run_traversal (env : Env) (code : String) : WalkResult :=
  if code = "haein_gpu" then
    let sysPart : WalkResult :=
      match env.fetch (.str "/redfish/v1/Systems/1") with
      | some system_data =>
          if pyTruthy system_data then
            seqW (collect_system_info system_data, false)
              (seqW (collect_processors env system_data)
                (collect_memory env system_data))
          else ([], false)
      | none => ([], false)
    let gpuPart : WalkResult :=
      match env.fetch (.str "/redfish/v1/Systems/HGX_Baseboard_0") with
      | some gpu_data =>
          if pyTruthy gpu_data then
            seqW (collect_gpu_system_info gpu_data, false)
              (seqW (collect_gpu_processors env gpu_data)
                (collect_gpu_memory env gpu_data))
          else ([], false)
      | none => ([], false)
    seqW sysPart gpuPart
  else ([], false)

/-- Python `round(x, 2)` on the scrape duration, floats modelled as
rationals with round-half-up. -/
def round2 (q : Rat) : Rat := ((round (q * 100) : Int) : Rat) / 100

/-- The outcome of one poll cycle: the batch of the main
`GaugeMetricFamily` (`self._metrics`), the batch of the duration family
(`self._scrape_metrics`), and whether `logout()` was attempted in the
`finally` block. -/
structure CollectResult where
  mainSamples : List Sample
  durationSamples : List Sample
  logoutAttempted : Bool
deriving DecidableEq, Repr

/-- `RedfishMetricsCollector.collect` (src/collector.py lines 342-394)
for a collector built as `RedfishMetricsCollector(module, host,
username, password, code)`: `self._host = f"{host}-ipmi"`; ping, login,
traversal (exceptions caught and logged); finally `logout()` is
attempted exactly when `self._redfish_object` holds a handle, its own
failure (`env.logoutOk = false`) caught by the inner `try`/`except`;
both families are always yielded, the duration family holding the single
sample `round(time.time() - self._start_time, 2)`. -/
def collect (env : Env) (host username password code : String) : CollectResult :=
  let host_ipmi := host ++ "-ipmi"
  let ping := ping_check env host_ipmi
  let mainHandle : List Sample × Bool :=
    if ping.2 then
      let login := redfish_login env host_ipmi username password
      if login.2.1 then
        let trav := run_traversal env code
        (ping.1 ++ login.1 ++ trav.1, login.2.2)
      else (ping.1 ++ login.1, login.2.2)
    else (ping.1, false)
  { mainSamples := mainHandle.1
    durationSamples := [⟨round2 (env.tEnd - env.tStart), []⟩]
    logoutAttempted := mainHandle.2 }

/-- Samples whose `labeltype` label is one of these come from the
inventory traversal (as opposed to the ping / login bookkeeping
samples). -/
def inventoryLabeltypes : List String :=
  ["system_health", "system_power", "processor", "memory",
   "gpu_system_health", "gpu_system_power", "gpu_processor", "gpu_memory"]

/-- Whether a sample is an inventory sample. -/
def isInventorySample (s : Sample) : Bool :=
  match s.labels.lookup "labeltype" with
  | some t => inventoryLabeltypes.contains t
  | none => false

/-- Number of inventory samples in a batch. -/
def inventoryCount (samples : List Sample) : Nat :=
  (samples.filter isInventorySample).length

/-- Number of samples in a batch carrying a given `labeltype` label. -/
def countLabeltype (samples : List Sample) (t : String) : Nat :=
  (samples.filter (fun s => s.labels.lookup "labeltype" == some t)).length

/-- Fixture: the `/redfish/v1/Systems/1` document of a host with one
system, two processors and one memory module. -/
def fixtureSystem : Json :=
  .obj [("Id", .str "1"), ("Manufacturer", .str "Acme"),
        ("Model", .str "X1"), ("PartNumber", .str "P-1"),
        ("SerialNumber", .str "S-1"), ("PowerState", .str "On"),
        ("Status", .obj [("Health", .str "OK")]),
        ("Processors", .obj [("@odata.id", .str "/redfish/v1/Systems/1/Processors")]),
        ("Memory", .obj [("@odata.id", .str "/redfish/v1/Systems/1/Memory")])]

/-- Fixture: the processor collection with two members. -/
def fixtureProcColl : Json :=
  .obj [("Members", .arr
    [.obj [("@odata.id", .str "/redfish/v1/Systems/1/Processors/1")],
     .obj [("@odata.id", .str "/redfish/v1/Systems/1/Processors/2")]])]

/-- Fixture: one processor member document. -/
def fixtureProc (i : String) : Json :=
  .obj [("Id", .str i), ("Status", .obj [("Health", .str "OK")]),
        ("Manufacturer", .str "Acme"), ("Model", .str "CPU"),
        ("Name", .str ("CPU" ++ i)),
        ("TotalCores", .num 8), ("TotalThreads", .num 16)]

/-- Fixture: the memory collection with one member. -/
def fixtureMemColl : Json :=
  .obj [("Members", .arr
    [.obj [("@odata.id", .str "/redfish/v1/Systems/1/Memory/1")]])]

/-- Fixture: the memory member document. -/
def fixtureMem : Json :=
  .obj [("Id", .str "DIMM1"), ("Status", .obj [("Health", .str "OK")]),
        ("CapacityMiB", .num 32768)]

/-- Fixture fetch capability: serves the one-system / two-processor /
one-memory tree; every other path (in particular the GPU baseboard
document) is unavailable. -/
def fixtureFetch : Json → Option Json
  | .str p =>
      if p = "/redfish/v1/Systems/1" then some fixtureSystem
      else if p = "/redfish/v1/Systems/1/Processors" then some fixtureProcColl
      else if p = "/redfish/v1/Systems/1/Processors/1" then some (fixtureProc "1")
      else if p = "/redfish/v1/Systems/1/Processors/2" then some (fixtureProc "2")
      else if p = "/redfish/v1/Systems/1/Memory" then some fixtureMemColl
      else if p = "/redfish/v1/Systems/1/Memory/1" then some fixtureMem
      else none
  | _ => none

/-- Fixture environment: probe and login succeed, the fetch capability
is `fixtureFetch`, logout succeeds, poll runs from time `t0` to `t1`. -/
def fixtureEnv (t0 t1 : Rat) : Env :=
  { probe := fun _ => .ok
    login := fun _ _ _ => .ok
    fetch := fixtureFetch
    logoutOk := true
    tStart := t0
    tEnd := t1 }

/-- Auxiliary: `round(x, 2)` of a nonnegative rational is
nonnegative. -/
theorem round2_nonneg (q : Rat) (h : 0 ≤ q) : 0 ≤ round2 q := by
  unfold round2
  have h1 : (0 : Int) ≤ round (q * 100) := by
    rw [round_eq]
    exact Int.le_floor.mpr (by push_cast; linarith)
  have h2 : ((0 : Int) : Rat) ≤ ((round (q * 100) : Int) : Rat) := by
    exact_mod_cast h1
  have h3 : (0 : Rat) ≤ ((round (q * 100) : Int) : Rat) := by simpa using h2
  linarith [div_nonneg h3 (by norm_num : (0:Rat) ≤ 100)]

/-- The poll cycle of the fixture host under a given profile code. -/
def fixtureRun (t0 t1 : Rat) (code : String) : CollectResult :=
  collect (fixtureEnv t0 t1) "node7" "u" "p" code

/-- C1 counterexample: against the fixture with one system, two
processors and one memory module, a cycle with the Standard (non-GPU)
profile code whose probe and login succeed emits only the ping and login
samples — zero system, processor or memory samples — because the whole
traversal of `collect` sits behind `if self._code == 'haein_gpu'`
(src/collector.py line 363).  The claim requires 2 system, 2 processor
and 1 memory sample here. -/
theorem claim1_counterexample :
    (fixtureRun 0 1 "standard").mainSamples =
      [⟨1, [("labeltype", "ping_check"), ("ping_check", "OK")]⟩,
       ⟨1, [("labeltype", "redfish_login"), ("redfish_login", "OK")]⟩] ∧
    countLabeltype (fixtureRun 0 1 "standard").mainSamples "system_health" = 0 ∧
    countLabeltype (fixtureRun 0 1 "standard").mainSamples "system_power" = 0 ∧
    countLabeltype (fixtureRun 0 1 "standard").mainSamples "processor" = 0 ∧
    countLabeltype (fixtureRun 0 1 "standard").mainSamples "memory" = 0 ∧
    inventoryCount (fixtureRun 0 1 "standard").mainSamples = 0 := by
  decide

/-- C1 (amended): only the `haein_gpu` profile fetches `/Systems/1` and
emits the system health and power samples plus one sample per processor
and memory member; against the fixture with one system, two processors,
one memory module (and no GPU-baseboard document) such a cycle emits
exactly 2 system samples, 2 processor samples, 1 memory sample, and
exactly one duration sample whose value is ≥ 0. -/
theorem claim1_amended (t0 t1 : Rat) (h : t0 ≤ t1) :
    countLabeltype (fixtureRun t0 t1 "haein_gpu").mainSamples "system_health" = 1 ∧
    countLabeltype (fixtureRun t0 t1 "haein_gpu").mainSamples "system_power" = 1 ∧
    countLabeltype (fixtureRun t0 t1 "haein_gpu").mainSamples "processor" = 2 ∧
    countLabeltype (fixtureRun t0 t1 "haein_gpu").mainSamples "memory" = 1 ∧
    inventoryCount (fixtureRun t0 t1 "haein_gpu").mainSamples = 5 ∧
    (fixtureRun t0 t1 "haein_gpu").durationSamples.length = 1 ∧
    ∀ s ∈ (fixtureRun t0 t1 "haein_gpu").durationSamples, 0 ≤ s.value := by
  have hmain : (fixtureRun t0 t1 "haein_gpu").mainSamples =
      (fixtureRun 0 0 "haein_gpu").mainSamples := rfl
  have hdur : (fixtureRun t0 t1 "haein_gpu").durationSamples =
      [⟨round2 (t1 - t0), []⟩] := rfl
  refine ⟨?_, ?_, ?_, ?_, ?_, ?_, ?_⟩
  · rw [hmain]; decide
  · rw [hmain]; decide
  · rw [hmain]; decide
  · rw [hmain]; decide
  · rw [hmain]; decide
  · rw [hdur]; rfl
  · rw [hdur]
    intro s hs
    simp only [List.mem_singleton] at hs
    subst hs
    exact round2_nonneg _ (by linarith)

/-- Witness for C1 (amended) at the concrete poll times 0 and 1. -/
theorem claim1_amended_witness :
    (0 : Rat) ≤ 1 ∧
    (countLabeltype (fixtureRun 0 1 "haein_gpu").mainSamples "system_health" = 1 ∧
     countLabeltype (fixtureRun 0 1 "haein_gpu").mainSamples "system_power" = 1 ∧
     countLabeltype (fixtureRun 0 1 "haein_gpu").mainSamples "processor" = 2 ∧
     countLabeltype (fixtureRun 0 1 "haein_gpu").mainSamples "memory" = 1 ∧
     inventoryCount (fixtureRun 0 1 "haein_gpu").mainSamples = 5 ∧
     (fixtureRun 0 1 "haein_gpu").durationSamples.length = 1 ∧
     ∀ s ∈ (fixtureRun 0 1 "haein_gpu").durationSamples, 0 ≤ s.value) :=
  ⟨by norm_num, claim1_amended 0 1 (by norm_num)⟩

/-- Modelled from the spec: the §4.1 status table exactly as the claim
lists it (status string, assigned code). -/
def specStatusTable : List (String × Nat) :=
  [("off", 0), ("on", 1), ("ok", 0), ("operable", 0), ("enabled", 0),
   ("good", 0), ("goodinuse", 0), ("critical", 1), ("degraded", 1),
   ("error", 1), ("warning", 2), ("absent", 6), ("unknown", 5),
   ("none", 5), ("null", 5), ("presentunused", 7), ("get_failed", 99),
   ("emptydata", 100)]

/-- C2 counterexample: the empty string is not a key of the table, yet
`_map_status` returns 5 for it (the `if not status` branch), not the 500
the claim requires for every string outside the table. -/
theorem claim2_counterexample :
    map_status (some "") = 5 ∧
    status_map.lookup (pyLower "") = none ∧
    (∀ p ∈ specStatusTable, p.1 ≠ "") ∧
    (5 : Nat) ≠ 500 := by
  decide

/-- C2 (amended): every status string of the §4.1 table maps to its
assigned code, and so do its upper-cased and lower-cased forms; absent,
the empty string and the literal "None" map to 5; and every other
string — non-empty, not "None", lower-cased form not a key of
`_status_map` — maps to 500. -/
theorem claim2_amended :
    (∀ p ∈ specStatusTable,
       map_status (some p.1) = p.2 ∧
       map_status (some (pyUpper p.1)) = p.2 ∧
       map_status (some (pyLower p.1)) = p.2) ∧
    map_status none = 5 ∧
    map_status (some "") = 5 ∧
    map_status (some "None") = 5 ∧
    (∀ s : String, s ≠ "" → s ≠ "None" →
       status_map.lookup (pyLower s) = none → map_status (some s) = 500) := by
  refine ⟨by decide, by decide, by decide, by decide, ?_⟩
  intro s h1 h2 h3
  simp [map_status, h1, h2, h3]

/-- Witness for C2 (amended): the table entry "off" and the unmapped
string "nonsense-status". -/
theorem claim2_amended_witness :
    (("off", 0) ∈ specStatusTable ∧
     "nonsense-status" ≠ "" ∧ "nonsense-status" ≠ "None" ∧
     status_map.lookup (pyLower "nonsense-status") = none) ∧
    map_status (some "off") = 0 ∧
    map_status (some "nonsense-status") = 500 :=
  ⟨⟨by decide, by decide, by decide, by decide⟩,
   (claim2_amended.1 ("off", 0) (by decide)).1,
   claim2_amended.2.2.2.2 "nonsense-status" (by decide) (by decide) (by decide)⟩

/-- Two environments with the same fetch capability drive the member
loop identically. -/
theorem member_loop_fetch_congr (env env' : Env) (h : env.fetch = env'.fetch)
    (mk : Json → Sample) (l : List Json) :
    member_loop env mk l = member_loop env' mk l := by
  induction l with
  | nil => rfl
  | cons m rest ih =>
      simp only [member_loop, h, ih]

/-- Two environments with the same fetch capability drive a collection
traversal identically. -/
theorem collect_resource_fetch_congr (env env' : Env) (h : env.fetch = env'.fetch)
    (parent : Json) (linkField : String) (mkSample : Json → Sample) :
    collect_resource env parent linkField mkSample =
      collect_resource env' parent linkField mkSample := by
  simp only [collect_resource, h, member_loop_fetch_congr env env' h]

/-- The traversal of `collect` depends on the environment only through
its fetch capability. -/
theorem run_traversal_fetch_congr (env env' : Env) (h : env.fetch = env'.fetch)
    (code : String) : run_traversal env code = run_traversal env' code := by
  simp only [run_traversal, collect_processors, collect_memory,
    collect_gpu_processors, collect_gpu_memory, h,
    collect_resource_fetch_congr env env' h]

/-- `collect` touches the environment only through the probe at
`host ++ "-ipmi"`, the login at `https://host ++ "-ipmi"` with the given
credentials, the fetch capability, and the two clock readings. -/
theorem collect_congr (env env' : Env) (host u p code : String)
    (hprobe : env.probe (host ++ "-ipmi") = env'.probe (host ++ "-ipmi"))
    (hlogin : env.login ("https://" ++ (host ++ "-ipmi")) u p =
              env'.login ("https://" ++ (host ++ "-ipmi")) u p)
    (hfetch : env.fetch = env'.fetch)
    (ht0 : env.tStart = env'.tStart) (ht1 : env.tEnd = env'.tEnd) :
    collect env host u p code = collect env' host u p code := by
  have hping : ping_check env (host ++ "-ipmi") = ping_check env' (host ++ "-ipmi") := by
    unfold ping_check
    rw [hprobe]
  have hlog : redfish_login env (host ++ "-ipmi") u p =
      redfish_login env' (host ++ "-ipmi") u p := by
    unfold redfish_login
    rw [hlogin]
  have htrav : run_traversal env code = run_traversal env' code :=
    run_traversal_fetch_congr env env' hfetch code
  simp only [collect]
  rw [hping, hlog, htrav, ht0, ht1]

/-- Whether one poll cycle creates a session handle: the ping check
succeeded and `redfish.redfish_client(...)` did not raise before
`self._redfish_object` was assigned (a failing `.login()` still leaves
the handle assigned). -/
def session_created (env : Env) (host username password : String) : Bool :=
  (ping_check env (host ++ "-ipmi")).2 &&
    (env.login ("https://" ++ (host ++ "-ipmi")) username password != .clientExn)

/-- C3: in every poll cycle, `logout()` is attempted in the `finally`
block exactly when a client handle exists — after successful traversal,
after a traversal exception (any `env.fetch`, hence any traversal
outcome, is quantified over) and after a failed `.login()` — and the
outcome of `logout()` itself (`env.logoutOk`) changes neither the
emitted sample batches nor anything else observable, so no handle
survives the cycle. -/
theorem claim3_logout_always (env : Env) (host u p code : String) :
    ((collect env host u p code).logoutAttempted = session_created env host u p) ∧
    (∀ b b' : Bool,
       collect { env with logoutOk := b } host u p code =
         collect { env with logoutOk := b' } host u p code) := by
  constructor
  · cases hp : env.probe (host ++ "-ipmi") <;>
      cases hl : env.login ("https://" ++ (host ++ "-ipmi")) u p <;>
        simp [collect, session_created, ping_check, redfish_login, hp, hl]
  · intro b b'
    exact collect_congr _ _ host u p code rfl rfl rfl rfl rfl

/-- C7: when the connectivity probe does not succeed (non-zero
`connect_ex` result or a socket exception), the cycle aborts before
login: the main family holds exactly the one failed ping sample with
value 0, zero inventory samples, no logout is attempted, and the
duration family still holds its one sample. -/
theorem claim7_probe_failure_aborts (env : Env) (host u p code : String)
    (h : env.probe (host ++ "-ipmi") ≠ .ok) :
    (collect env host u p code).mainSamples =
      [⟨0, [("labeltype", "ping_check"), ("ping_check", "Fail")]⟩] ∧
    inventoryCount (collect env host u p code).mainSamples = 0 ∧
    (collect env host u p code).logoutAttempted = false ∧
    (collect env host u p code).durationSamples.length = 1 := by
  have hm : (collect env host u p code).mainSamples =
      [⟨0, [("labeltype", "ping_check"), ("ping_check", "Fail")]⟩] := by
    cases hp : env.probe (host ++ "-ipmi") with
    | ok => exact absurd hp h
    | refused => simp [collect, ping_check, hp]
    | exn => simp [collect, ping_check, hp]
  have hlo : (collect env host u p code).logoutAttempted = false := by
    cases hp : env.probe (host ++ "-ipmi") with
    | ok => exact absurd hp h
    | refused => simp [collect, ping_check, hp]
    | exn => simp [collect, ping_check, hp]
  refine ⟨hm, ?_, hlo, rfl⟩
  rw [hm]
  decide

/-- Witness for C7: an environment whose probe is refused
everywhere. -/
theorem claim7_witness :
    ({ fixtureEnv 0 0 with probe := fun _ => .refused } : Env).probe ("h" ++ "-ipmi") ≠ .ok ∧
    ((collect { fixtureEnv 0 0 with probe := fun _ => .refused } "h" "u" "p" "haein_gpu").mainSamples =
        [⟨0, [("labeltype", "ping_check"), ("ping_check", "Fail")]⟩] ∧
      inventoryCount (collect { fixtureEnv 0 0 with probe := fun _ => .refused } "h" "u" "p" "haein_gpu").mainSamples = 0 ∧
      (collect { fixtureEnv 0 0 with probe := fun _ => .refused } "h" "u" "p" "haein_gpu").logoutAttempted = false ∧
      (collect { fixtureEnv 0 0 with probe := fun _ => .refused } "h" "u" "p" "haein_gpu").durationSamples.length = 1) :=
  ⟨by decide, claim7_probe_failure_aborts _ "h" "u" "p" "haein_gpu" (by decide)⟩

/-- C8: when the probe succeeds but login fails (either
`redfish.redfish_client` or `.login()` raising, covering bad
credentials, network errors and protocol errors), the cycle aborts with
no traversal: exactly one ping-success sample with value 1, one
login-failure sample with value 0, and zero inventory samples. -/
theorem claim8_login_failure_aborts (env : Env) (host u p code : String)
    (hping : env.probe (host ++ "-ipmi") = .ok)
    (hlogin : env.login ("https://" ++ (host ++ "-ipmi")) u p ≠ .ok) :
    (collect env host u p code).mainSamples =
      [⟨1, [("labeltype", "ping_check"), ("ping_check", "OK")]⟩,
       ⟨0, [("labeltype", "redfish_login"), ("redfish_login", "Failed")]⟩] ∧
    inventoryCount (collect env host u p code).mainSamples = 0 := by
  have hm : (collect env host u p code).mainSamples =
      [⟨1, [("labeltype", "ping_check"), ("ping_check", "OK")]⟩,
       ⟨0, [("labeltype", "redfish_login"), ("redfish_login", "Failed")]⟩] := by
    cases hl : env.login ("https://" ++ (host ++ "-ipmi")) u p with
    | ok => exact absurd hl hlogin
    | clientExn => simp [collect, ping_check, redfish_login, hping, hl]
    | loginExn => simp [collect, ping_check, redfish_login, hping, hl]
  refine ⟨hm, ?_⟩
  rw [hm]
  decide

/-- Witness for C8: probe succeeds, the login client raises. -/
theorem claim8_witness :
    (({ fixtureEnv 0 0 with login := fun _ _ _ => .clientExn } : Env).probe ("h" ++ "-ipmi") = .ok ∧
     ({ fixtureEnv 0 0 with login := fun _ _ _ => .clientExn } : Env).login
        ("https://" ++ ("h" ++ "-ipmi")) "u" "p" ≠ .ok) ∧
    ((collect { fixtureEnv 0 0 with login := fun _ _ _ => .clientExn } "h" "u" "p" "haein_gpu").mainSamples =
        [⟨1, [("labeltype", "ping_check"), ("ping_check", "OK")]⟩,
         ⟨0, [("labeltype", "redfish_login"), ("redfish_login", "Failed")]⟩] ∧
      inventoryCount (collect { fixtureEnv 0 0 with login := fun _ _ _ => .clientExn } "h" "u" "p" "haein_gpu").mainSamples = 0) :=
  ⟨⟨by decide, by decide⟩,
   claim8_login_failure_aborts _ "h" "u" "p" "haein_gpu" (by decide) (by decide)⟩

/-- C10: every network operation of the poll cycle is directed at the
scrape hostname with `-ipmi` appended (`self._host = f"{host}-ipmi"`):
the result of `collect` is unchanged by changing the probe or login
behaviour at any other address — in particular at `host` itself — and
the contacted address is never the caller's address. -/
theorem claim10_ipmi_suffix_only (env env' : Env) (host u p code : String)
    (hprobe : env.probe (host ++ "-ipmi") = env'.probe (host ++ "-ipmi"))
    (hlogin : env.login ("https://" ++ (host ++ "-ipmi")) u p =
              env'.login ("https://" ++ (host ++ "-ipmi")) u p)
    (hfetch : env.fetch = env'.fetch)
    (ht0 : env.tStart = env'.tStart) (ht1 : env.tEnd = env'.tEnd) :
    collect env host u p code = collect env' host u p code ∧
    host ++ "-ipmi" ≠ host := by
  refine ⟨collect_congr env env' host u p code hprobe hlogin hfetch ht0 ht1, ?_⟩
  intro hcontr
  have hlen := congrArg String.length hcontr
  rw [String.length_append] at hlen
  have h5 : ("-ipmi" : String).length = 5 := rfl
  omega

/-- Environment probing successfully only at the `-ipmi` address of the
host "h", refusing everywhere else (in particular at "h" itself). -/
def envIpmiOnly : Env :=
  { fixtureEnv 0 0 with probe := fun a => if a = "h" ++ "-ipmi" then .ok else .refused }

/-- Witness for C10: an all-ok probe and a probe refusing everywhere but
at "h-ipmi" give identical cycles for the host "h". -/
theorem claim10_witness :
    ((fixtureEnv 0 0).probe ("h" ++ "-ipmi") = envIpmiOnly.probe ("h" ++ "-ipmi") ∧
     (fixtureEnv 0 0).login ("https://" ++ ("h" ++ "-ipmi")) "u" "p" =
       envIpmiOnly.login ("https://" ++ ("h" ++ "-ipmi")) "u" "p" ∧
     (fixtureEnv 0 0).fetch = envIpmiOnly.fetch) ∧
    (collect (fixtureEnv 0 0) "h" "u" "p" "haein_gpu" =
       collect envIpmiOnly "h" "u" "p" "haein_gpu" ∧
     "h" ++ "-ipmi" ≠ "h") :=
  ⟨⟨by decide, rfl, rfl⟩,
   claim10_ipmi_suffix_only (fixtureEnv 0 0) envIpmiOnly "h" "u" "p" "haein_gpu"
     (by decide) rfl rfl rfl rfl⟩

/-- Reference reader for C4: resolve a key path through nested mappings,
`none` as soon as an intermediate value is missing or not a mapping, or
the terminal key is missing. -/
def lookupPath : Json → List String → Option Json
  | v, [] => some v
  | v, k :: ks =>
      match v with
      | .obj fields =>
          match fields.lookup k with
          | some w => lookupPath w ks
          | none => none
      | _ => none

/-- `_safe_get` returns the sentinel from the default string substituted
for a missing key, whatever keys remain. -/
theorem safe_get_default_str (ks : List String) :
    safe_get (.str "None") ks = "None" := by
  cases ks <;> rfl

/-- `_safe_get` agrees with the reference reader: sentinel on a failed
or falsy resolution, the stripped stringification otherwise. -/
theorem safe_get_lookupPath (d : Json) (ks : List String) :
    safe_get d ks =
      match lookupPath d ks with
      | none => "None"
      | some v => if pyTruthy v then pyStrip (pyStr v) else "None" := by
  induction ks generalizing d with
  | nil => rfl
  | cons k rest ih =>
      cases d with
      | obj fields =>
          cases hf : fields.lookup k with
          | some v =>
              simp only [safe_get, isDict, if_true, lookupPath, hf, Option.getD_some]
              exact ih v
          | none =>
              simp only [safe_get, isDict, if_true, lookupPath, hf, Option.getD_none]
              exact safe_get_default_str rest
      | null => rfl
      | bool b => rfl
      | num n => rfl
      | str s => rfl
      | arr l => rfl

/-- C4: `_safe_get` descends one key at a time and returns the sentinel
whenever an intermediate value is missing or not a mapping or the
terminal value is missing or falsy, and otherwise the stringified,
whitespace-trimmed terminal value; including the three concrete examples
of the claim. -/
theorem claim4_safe_get_descent (d : Json) (ks : List String) :
    (lookupPath d ks = none → safe_get d ks = "None") ∧
    (∀ v, lookupPath d ks = some v → pyTruthy v = false → safe_get d ks = "None") ∧
    (∀ v, lookupPath d ks = some v → pyTruthy v = true →
        safe_get d ks = pyStrip (pyStr v)) ∧
    safe_get (.obj [("a", .obj [("b", .str "x ")])]) ["a", "b"] = "x" ∧
    safe_get (.obj [("a", .obj [])]) ["a", "b"] = "None" ∧
    safe_get (.obj [("a", .str "scalar")]) ["a", "b"] = "None" := by
  refine ⟨?_, ?_, ?_, by decide, by decide, by decide⟩
  · intro h
    rw [safe_get_lookupPath, h]
  · intro v h hf
    rw [safe_get_lookupPath, h]
    simp [hf]
  · intro v h ht
    rw [safe_get_lookupPath, h]
    simp [ht]

/-- Witness for C4: a non-mapping intermediate yields the sentinel, and
a truthy terminal string is stripped. -/
theorem claim4_witness :
    (lookupPath (Json.obj [("a", Json.str "scalar")]) ["a", "b"] = none ∧
     lookupPath (Json.obj [("a", Json.obj [("b", Json.str "x ")])]) ["a", "b"] =
       some (Json.str "x ") ∧
     pyTruthy (Json.str "x ") = true) ∧
    safe_get (Json.obj [("a", Json.str "scalar")]) ["a", "b"] = "None" ∧
    safe_get (Json.obj [("a", Json.obj [("b", Json.str "x ")])]) ["a", "b"] =
      pyStrip (pyStr (Json.str "x ")) :=
  ⟨⟨rfl, rfl, rfl⟩,
   (claim4_safe_get_descent (Json.obj [("a", Json.str "scalar")]) ["a", "b"]).1 rfl,
   (claim4_safe_get_descent (Json.obj [("a", Json.obj [("b", Json.str "x ")])])
       ["a", "b"]).2.2.1 (Json.str "x ") rfl rfl⟩

/-- Skipping lemma: a member whose document fetch fails contributes
nothing and leaves the processing of every sibling unchanged. -/
theorem member_loop_skip (env : Env) (mk : Json → Sample) (m pathv : Json)
    (hget : pyDictGetD m "@odata.id" .null = .ok pathv)
    (hfail : env.fetch pathv = none) (pre post : List Json) :
    member_loop env mk (pre ++ m :: post) = member_loop env mk (pre ++ post) := by
  induction pre with
  | nil => simp only [List.nil_append, member_loop, hget, hfail]
  | cons a rest ih =>
      simp only [List.cons_append, member_loop, List.append_eq, ih]

/-- C5: an absent `Processors/@odata.id` or `Memory/@odata.id` link, or
a failed fetch of the linked collection, silently contributes zero
samples and no error; and a failed fetch of one member document skips
exactly that member while all sibling members are still processed. -/
theorem claim5_silent_skips (env : Env) (sys : Json) :
    (safe_get sys ["Processors", "@odata.id"] = "None" →
        collect_processors env sys = ([], false)) ∧
    (∀ q : String, safe_get sys ["Processors", "@odata.id"] = q → q ≠ "None" →
        env.fetch (.str q) = none → collect_processors env sys = ([], false)) ∧
    (safe_get sys ["Memory", "@odata.id"] = "None" →
        collect_memory env sys = ([], false)) ∧
    (∀ q : String, safe_get sys ["Memory", "@odata.id"] = q → q ≠ "None" →
        env.fetch (.str q) = none → collect_memory env sys = ([], false)) ∧
    (∀ (mk : Json → Sample) (m pathv : Json) (pre post : List Json),
        pyDictGetD m "@odata.id" .null = .ok pathv → env.fetch pathv = none →
        member_loop env mk (pre ++ m :: post) = member_loop env mk (pre ++ post)) := by
  refine ⟨?_, ?_, ?_, ?_, ?_⟩
  · intro h
    simp [collect_processors, collect_resource, h]
  · intro q hq hne hf
    simp [collect_processors, collect_resource, hq, hne, hf]
  · intro h
    simp [collect_memory, collect_resource, h]
  · intro q hq hne hf
    simp [collect_memory, collect_resource, hq, hne, hf]
  · intro mk m pathv pre post hget hfail
    exact member_loop_skip env mk m pathv hget hfail pre post

/-- Environment whose fetch capability always fails. -/
def envNoFetch : Env := { fixtureEnv 0 0 with fetch := fun _ => none }

/-- A member reference whose document is unavailable. -/
def badMember : Json := .obj [("@odata.id", .str "/absent")]

/-- Witness for C5: a system document without links, a collection whose
fetch fails, and a failing middle member between two good siblings. -/
theorem claim5_witness :
    (safe_get (Json.obj [("Id", Json.str "1")]) ["Processors", "@odata.id"] = "None" ∧
     safe_get fixtureSystem ["Processors", "@odata.id"] = "/redfish/v1/Systems/1/Processors" ∧
     envNoFetch.fetch (Json.str "/redfish/v1/Systems/1/Processors") = none ∧
     pyDictGetD badMember "@odata.id" Json.null = .ok (Json.str "/absent") ∧
     (fixtureEnv 0 0).fetch (Json.str "/absent") = none) ∧
    collect_processors (fixtureEnv 0 0) (Json.obj [("Id", Json.str "1")]) = ([], false) ∧
    collect_processors envNoFetch fixtureSystem = ([], false) ∧
    member_loop (fixtureEnv 0 0) processor_sample
        ([Json.obj [("@odata.id", Json.str "/redfish/v1/Systems/1/Processors/1")]] ++
          badMember :: [Json.obj [("@odata.id", Json.str "/redfish/v1/Systems/1/Processors/2")]]) =
      member_loop (fixtureEnv 0 0) processor_sample
        ([Json.obj [("@odata.id", Json.str "/redfish/v1/Systems/1/Processors/1")]] ++
          [Json.obj [("@odata.id", Json.str "/redfish/v1/Systems/1/Processors/2")]]) :=
  ⟨⟨by decide, by decide, rfl, rfl, rfl⟩,
   (claim5_silent_skips (fixtureEnv 0 0) (Json.obj [("Id", Json.str "1")])).1 (by decide),
   (claim5_silent_skips envNoFetch fixtureSystem).2.1
     "/redfish/v1/Systems/1/Processors" (by decide) (by decide) rfl,
   (claim5_silent_skips (fixtureEnv 0 0) fixtureSystem).2.2.2.2 processor_sample
     badMember (Json.str "/absent")
     [Json.obj [("@odata.id", Json.str "/redfish/v1/Systems/1/Processors/1")]]
     [Json.obj [("@odata.id", Json.str "/redfish/v1/Systems/1/Processors/2")]] rfl rfl⟩

/-- C6: in the GPU-baseboard processor loop, a resolvable, truthy member
document is emitted as exactly one sample; when its `Id` field reads
"FPGA_0" that sample carries label-type `gpu_processor` and exactly the
reduced label set, any other member carries label-type `processor` and
the full GPU-processor label set. -/
theorem claim6_fpga (env : Env) (rest : List Json) (m pathv pdata : Json)
    (hget : pyDictGetD m "@odata.id" .null = .ok pathv)
    (hfetch : env.fetch pathv = some pdata)
    (htruthy : pyTruthy pdata = true) :
    member_loop env gpu_processor_sample (m :: rest) =
      (gpu_processor_sample pdata :: (member_loop env gpu_processor_sample rest).1,
        (member_loop env gpu_processor_sample rest).2) ∧
    (safe_get pdata ["Id"] = "FPGA_0" →
        (gpu_processor_sample pdata).labels.map Prod.fst =
          ["labeltype", "Status_Health", "FirmwareVersion", "Id", "Manufacturer", "Name"] ∧
        (gpu_processor_sample pdata).labels.head? = some ("labeltype", "gpu_processor")) ∧
    (safe_get pdata ["Id"] ≠ "FPGA_0" →
        (gpu_processor_sample pdata).labels.map Prod.fst =
          ["labeltype", "Status_Health", "BaseSpeedMHz", "FirmwareVersion", "Id",
           "Manufacturer", "MaxSpeedMHz", "Model", "Name", "OperatingSpeedMHz",
           "PartNumber", "ProcessorType", "SerialNumber", "TotalThreads"] ∧
        (gpu_processor_sample pdata).labels.head? = some ("labeltype", "processor")) := by
  refine ⟨?_, ?_, ?_⟩
  · simp only [member_loop, hget, hfetch, htruthy, if_true]
  · intro h
    simp [gpu_processor_sample, h]
  · intro h
    simp [gpu_processor_sample, h]

/-- The FPGA_0 member document of the C6 witness. -/
def fpgaDoc : Json :=
  .obj [("Id", .str "FPGA_0"), ("Status", .obj [("Health", .str "OK")]),
        ("FirmwareVersion", .str "1.0"), ("Manufacturer", .str "X"),
        ("Name", .str "FPGA")]

/-- A non-FPGA GPU-baseboard processor member document. -/
def gpuDoc : Json :=
  .obj [("Id", .str "GPU_0"), ("Status", .obj [("Health", .str "OK")]),
        ("Name", .str "GPU")]

/-- Fetch capability of the C6 witness. -/
def gpuFetch : Json → Option Json
  | .str s =>
      if s = "/gpu/f" then some fpgaDoc
      else if s = "/gpu/g" then some gpuDoc
      else none
  | _ => none

/-- Environment of the C6 witness. -/
def envGpuFixture : Env := { fixtureEnv 0 0 with fetch := gpuFetch }

/-- Witness for C6: the FPGA_0 member gets the reduced `gpu_processor`
sample, the GPU_0 member the full `processor` sample. -/
theorem claim6_witness :
    (pyDictGetD (Json.obj [("@odata.id", Json.str "/gpu/f")]) "@odata.id" Json.null =
        .ok (Json.str "/gpu/f") ∧
     envGpuFixture.fetch (Json.str "/gpu/f") = some fpgaDoc ∧
     pyTruthy fpgaDoc = true ∧ safe_get fpgaDoc ["Id"] = "FPGA_0" ∧
     pyDictGetD (Json.obj [("@odata.id", Json.str "/gpu/g")]) "@odata.id" Json.null =
        .ok (Json.str "/gpu/g") ∧
     envGpuFixture.fetch (Json.str "/gpu/g") = some gpuDoc ∧
     pyTruthy gpuDoc = true ∧ safe_get gpuDoc ["Id"] ≠ "FPGA_0") ∧
    ((gpu_processor_sample fpgaDoc).labels.map Prod.fst =
        ["labeltype", "Status_Health", "FirmwareVersion", "Id", "Manufacturer", "Name"] ∧
     (gpu_processor_sample fpgaDoc).labels.head? = some ("labeltype", "gpu_processor")) ∧
    (gpu_processor_sample gpuDoc).labels.head? = some ("labeltype", "processor") ∧
    member_loop envGpuFixture gpu_processor_sample
        [Json.obj [("@odata.id", Json.str "/gpu/f")]] =
      (gpu_processor_sample fpgaDoc ::
          (member_loop envGpuFixture gpu_processor_sample []).1,
        (member_loop envGpuFixture gpu_processor_sample []).2) :=
  ⟨⟨rfl, rfl, rfl, by decide, rfl, rfl, rfl, by decide⟩,
   (claim6_fpga envGpuFixture [] (Json.obj [("@odata.id", Json.str "/gpu/f")])
       (Json.str "/gpu/f") fpgaDoc rfl rfl rfl).2.1 (by decide),
   ((claim6_fpga envGpuFixture [] (Json.obj [("@odata.id", Json.str "/gpu/g")])
       (Json.str "/gpu/g") gpuDoc rfl rfl rfl).2.2 (by decide)).2,
   (claim6_fpga envGpuFixture [] (Json.obj [("@odata.id", Json.str "/gpu/f")])
       (Json.str "/gpu/f") fpgaDoc rfl rfl rfl).1⟩

/-- C9: totality of the status mapper and the nested-field reader — the
raising-aware embeddings of `_map_status` and `_safe_get` never raise;
they return, for every input (including non-mapping documents of any
shape), the severity code and string computed by the total functions. -/
theorem claim9_totality (st : Option String) (d : Json) (ks : List String) :
    map_statusE st = .ok (map_status st) ∧ safe_getE d ks = .ok (safe_get d ks) := by
  constructor
  · cases st with
    | none => rfl
    | some s =>
        simp only [map_statusE, map_status]
        split <;> rfl
  · induction ks generalizing d with
    | nil => rfl
    | cons k rest ih =>
        cases d with
        | obj fields => simp [safe_getE, safe_get, isDict, pyDictGetD, ih]
        | null => rfl
        | bool b => rfl
        | num n => rfl
        | str s => rfl
        | arr l => rfl
